import Mathlib

/-!
Verification of the FreeBSD cross-build compatibility header
`tools/build/cross-build/include/common/sys/types.h`.

The header is pure preprocessor glue, so we model the compile-time effect of
including it.  A translation unit is represented by a preprocessing state:
whether this header has already been included (its `#pragma once` marker),
the set of defined object-like macros, and the sequence of type declarations
currently visible at file scope.  A platform supplies the behaviour of the
two headers this file includes: whether `#include_next <sys/types.h>`
resolves, and which declarations and macros the platform `sys/types.h` and
`<stdint.h>` contribute when their text is emitted.  `<stdint.h>` is a
mandatory ISO C header, present in every conforming implementation, so its
resolution is not modelled as fallible.

Emitting a declaration into the translation unit follows the C11 rules the
toolchain applies: a typedef may be redeclared at the same type, and a
struct tag may be forward-declared repeatedly, but a typedef at a different
type, or a second definition of the same struct tag, is a compile error.
Inclusion therefore returns `Except Unit`, an error meaning the translation
unit fails to compile (missing header or redefinition conflict).
-/

namespace CrossBuild

/-- A C declaration at file scope, as far as this header is concerned: a
typedef of a name to a target type (the target rendered as its source text),
a struct forward declaration (an incomplete type), or a struct definition
(a complete type; never produced by this header, present so that
incompleteness is expressible). -/
inductive Decl where
  | typedef (name : String) (target : String)
  | structFwd (tag : String)
  | structDef (tag : String)
deriving DecidableEq, Repr

/-- Whether a newly emitted declaration clashes with an existing one under
the C11 rules: a typedef clashes with a typedef of the same name at a
different type, and a struct definition clashes with a definition of the
same tag.  Identical typedef redeclarations and repeated struct forward
declarations are benign.  Struct tags live in a separate namespace from
ordinary identifiers, so a typedef never clashes with a tag. -/
def Decl.conflictsWith : Decl → Decl → Bool
  | Decl.typedef n t, Decl.typedef m s => n == m && t != s
  | Decl.structDef a, Decl.structDef b => a == b
  | _, _ => false

/-- Preprocessing state of a translation unit at the point where the header
is included: the `#pragma once` marker for this file, the defined macros,
and the declarations visible so far, in order of emission. -/
structure PPState where
  typesHIncluded : Bool
  macros : List String
  env : List Decl
deriving DecidableEq, Repr

/-- A target platform, viewed through the two headers this file includes:
whether `#include_next <sys/types.h>` finds a platform header, and the
declarations and macro definitions that the platform `sys/types.h` and
`<stdint.h>` contribute to the translation unit. -/
structure Platform where
  sysTypesOk : Bool
  sysTypesDecls : List Decl
  sysTypesMacros : List String
  stdintDecls : List Decl
  stdintMacros : List String
deriving DecidableEq, Repr

/-- Emit a sequence of declarations into the environment, left to right,
failing on the first one that conflicts with a declaration already
visible. -/
def emitDecls : List Decl → List Decl → Except Unit (List Decl)
  | env, [] => Except.ok env
  | env, d :: ds =>
    if env.any (fun e => d.conflictsWith e) then Except.error ()
    else emitDecls (env ++ [d]) ds

/-- Decidable check that emitting `ds` into `env` raises no conflict. -/
def addsOk : List Decl → List Decl → Bool
  | _, [] => true
  | env, d :: ds =>
    !(env.any (fun e => d.conflictsWith e)) && addsOk (env ++ [d]) ds

/-- Line 10 of the header: `typedef uintptr_t __uintptr_t;`. -/
def uintptrDecl : Decl := Decl.typedef "__uintptr_t" "uintptr_t"

/-- Line 14 of the header: `typedef int __nl_item;`. -/
def nlItemDecl : Decl := Decl.typedef "__nl_item" "int"

/-- Line 16 of the header: `typedef size_t u_register_t;`. -/
def uRegisterDecl : Decl := Decl.typedef "u_register_t" "size_t"

/-- Line 22 of the header: `typedef unsigned long cap_ioctl_t;`. -/
def capIoctlDecl : Decl := Decl.typedef "cap_ioctl_t" "unsigned long"

/-- Line 27 of the header: `struct cap_rights;`. -/
def capRightsFwd : Decl := Decl.structFwd "cap_rights"

/-- Line 29 of the header: `typedef struct cap_rights cap_rights_t;`. -/
def capRightsDecl : Decl := Decl.typedef "cap_rights_t" "struct cap_rights"

/-- The macros in scope at line 9 of the header, after
`#include_next <sys/types.h>` (line 2) and `#include <stdint.h>` (line 7)
have contributed theirs. -/
def macrosAfterIncludes (plat : Platform) (st : PPState) : List String :=
  st.macros ++ plat.sysTypesMacros ++ plat.stdintMacros

/-- Macro state after the `_CAP_IOCTL_T_DECLARED` block, lines 20 to 23:
`#ifndef _CAP_IOCTL_T_DECLARED` / `#define _CAP_IOCTL_T_DECLARED`. -/
def macrosAfterIoctl (ms : List String) : List String :=
  if "_CAP_IOCTL_T_DECLARED" ∈ ms then ms
  else ms ++ ["_CAP_IOCTL_T_DECLARED"]

/-- Macro state after the `_CAP_RIGHTS_T_DECLARED` block, lines 25 to 30:
`#ifndef _CAP_RIGHTS_T_DECLARED` / `#define _CAP_RIGHTS_T_DECLARED`. -/
def macrosAfterPatch (ms : List String) : List String :=
  if "_CAP_RIGHTS_T_DECLARED" ∈ macrosAfterIoctl ms then macrosAfterIoctl ms
  else macrosAfterIoctl ms ++ ["_CAP_RIGHTS_T_DECLARED"]

/-- The declarations the header itself emits on a first inclusion, lines 9
to 30, given the macros `ms` in scope at line 9: the `__uintptr_t` typedef
under `#ifdef __linux__` (lines 9 to 11), the unconditional `__nl_item` and
`u_register_t` typedefs (lines 14 and 16), the `cap_ioctl_t` typedef unless
`_CAP_IOCTL_T_DECLARED` is defined (lines 20 to 23), and the `cap_rights`
forward declaration plus `cap_rights_t` typedef unless
`_CAP_RIGHTS_T_DECLARED` is defined at line 25, after the ioctl block may
have updated the macro state (lines 25 to 30). -/
def patchFor (ms : List String) : List Decl :=
  (if "__linux__" ∈ ms then [uintptrDecl] else [])
    ++ [nlItemDecl, uRegisterDecl]
    ++ (if "_CAP_IOCTL_T_DECLARED" ∈ ms then [] else [capIoctlDecl])
    ++ (if "_CAP_RIGHTS_T_DECLARED" ∈ macrosAfterIoctl ms then []
        else [capRightsFwd, capRightsDecl])

/-- Shallow embedding of `tools/build/cross-build/include/common/sys/types.h`.
Returns the list of declarations this inclusion emits into the translation
unit together with the resulting preprocessing state, or an error when the
translation unit fails to compile.  Line 1 (`#pragma once`) makes a repeated
inclusion emit nothing; line 2 (`#include_next <sys/types.h>`) emits the
platform header or fails to resolve; line 7 emits `<stdint.h>`; lines 9 to
30 emit the conditional patch declarations described by `patchFor`. -/
def includeCompatSysTypesH (plat : Platform) (st : PPState) :
    Except Unit (List Decl × PPState) :=
  if st.typesHIncluded then Except.ok ([], st)
  else if plat.sysTypesOk then
    match emitDecls st.env plat.sysTypesDecls with
    | Except.error e => Except.error e
    | Except.ok env2 =>
      match emitDecls env2 plat.stdintDecls with
      | Except.error e => Except.error e
      | Except.ok env7 =>
        match emitDecls env7 (patchFor (macrosAfterIncludes plat st)) with
        | Except.error e => Except.error e
        | Except.ok envEnd =>
          Except.ok
            (plat.sysTypesDecls ++ plat.stdintDecls
               ++ patchFor (macrosAfterIncludes plat st),
             { typesHIncluded := true,
               macros := macrosAfterPatch (macrosAfterIncludes plat st),
               env := envEnd })
  else Except.error ()

/-- The five symbol names the specification says the header backfills. -/
def fiveNames : List String :=
  ["__uintptr_t", "__nl_item", "u_register_t", "cap_ioctl_t", "cap_rights_t"]

/-- Whether a declaration is a typedef of the given name. -/
def Decl.isTypedefNamed : Decl → String → Bool
  | Decl.typedef m _, n => m == n
  | _, _ => false

/-- How many typedefs of the given name a declaration list contains. -/
def typedefCount (ds : List Decl) (n : String) : Nat :=
  (ds.filter (fun d => d.isTypedefNamed n)).length

/-- The declarations an inclusion emitted, `[]` when it failed. -/
def emittedDecls (r : Except Unit (List Decl × PPState)) : List Decl :=
  match r with
  | Except.ok p => p.1
  | Except.error _ => []

/-- The environment after an inclusion, `[]` when it failed. -/
def envAfter (r : Except Unit (List Decl × PPState)) : List Decl :=
  match r with
  | Except.ok p => p.2.env
  | Except.error _ => []

/-! ### Concrete fixtures: platforms and translation units used to
instantiate the theorems below -/

/-- A fresh translation unit: header not yet included, no macros defined,
nothing declared. -/
def stEmpty : PPState := { typesHIncluded := false, macros := [], env := [] }

/-- A fresh translation unit on a host whose compiler predefines the
`__linux__` macro. -/
def stLinuxTU : PPState :=
  { typesHIncluded := false, macros := ["__linux__"], env := [] }

/-- A fresh translation unit in which an unrelated feature macro is defined
and one unrelated type has already been declared. -/
def stOtherTU : PPState :=
  { typesHIncluded := false, macros := ["_XOPEN_SOURCE"],
    env := [ Decl.typedef "u_int" "unsigned int"] }

/-- A fresh translation unit in which `__nl_item` is already typedefed,
at the same type the header uses. -/
def stNlItemTU : PPState :=
  { typesHIncluded := false, macros := [], env := [nlItemDecl] }

/-- A fresh translation unit in which `__nl_item` is already typedefed at a
type different from the one the header emits. -/
def stNlConflictTU : PPState :=
  { typesHIncluded := false, macros := [],
    env := [ Decl.typedef "__nl_item" "long"] }

/-- A minimal platform: `sys/types.h` resolves and both included headers
contribute nothing. -/
def platBare : Platform :=
  { sysTypesOk := true, sysTypesDecls := [], sysTypesMacros := [],
    stdintDecls := [], stdintMacros := [] }

/-- A platform whose `stdint.h` contributes `uint32_t` and `uintptr_t`
while its `sys/types.h` contributes nothing. -/
def platStdint : Platform :=
  { platBare with
    stdintDecls := [ Decl.typedef "uint32_t" "unsigned int",
                    Decl.typedef "uintptr_t" "unsigned long"] }

/-- A platform whose `sys/types.h` contributes one declaration. -/
def platSys : Platform :=
  { platBare with sysTypesDecls := [ Decl.typedef "u_int" "unsigned int"] }

/-- A platform whose `sys/types.h` itself typedefs `__nl_item` at a type
different from the `int` the header uses. -/
def platNlConflict : Platform :=
  { platBare with sysTypesDecls := [ Decl.typedef "__nl_item" "long"] }

/-- A platform on which `#include_next <sys/types.h>` does not resolve. -/
def platNoSysTypes : Platform := { platBare with sysTypesOk := false }

/-- The declarations a first inclusion emits on `platBare` from a context
with no macros defined. -/
def bareOut : List Decl :=
  [nlItemDecl, uRegisterDecl, capIoctlDecl, capRightsFwd, capRightsDecl]

/-- State after a first inclusion on `platBare` from `stEmpty`. -/
def stAfterBare : PPState :=
  { typesHIncluded := true,
    macros := ["_CAP_IOCTL_T_DECLARED", "_CAP_RIGHTS_T_DECLARED"],
    env := bareOut }

/-- State after a first inclusion on `platBare` from `stOtherTU`. -/
def stAfterOther : PPState :=
  { typesHIncluded := true,
    macros := ["_XOPEN_SOURCE", "_CAP_IOCTL_T_DECLARED",
               "_CAP_RIGHTS_T_DECLARED"],
    env := Decl.typedef "u_int" "unsigned int" :: bareOut }

/-- The declarations a first inclusion emits on `platStdint` from
`stEmpty`. -/
def stdintOut : List Decl :=
  Decl.typedef "uint32_t" "unsigned int"
    :: Decl.typedef "uintptr_t" "unsigned long" :: bareOut

/-- State after a first inclusion on `platStdint` from `stEmpty`. -/
def stAfterStdint : PPState :=
  { typesHIncluded := true,
    macros := ["_CAP_IOCTL_T_DECLARED", "_CAP_RIGHTS_T_DECLARED"],
    env := stdintOut }

/-- The declarations a first inclusion emits on `platSys` from
`stEmpty`. -/
def sysOut : List Decl := Decl.typedef "u_int" "unsigned int" :: bareOut

/-- State after a first inclusion on `platSys` from `stEmpty`. -/
def stAfterSys : PPState :=
  { typesHIncluded := true,
    macros := ["_CAP_IOCTL_T_DECLARED", "_CAP_RIGHTS_T_DECLARED"],
    env := sysOut }

/-! ### Basic lemmas about emission and the macro bookkeeping -/

theorem emitDecls_ok_eq (ds : List Decl) : ∀ env env' : List Decl,
    emitDecls env ds = Except.ok env' → env' = env ++ ds := by
  induction ds with
  | nil =>
    intro env env' h
    simp only [emitDecls, Except.ok.injEq] at h
    simp [h]
  | cons d ds ih =>
    intro env env' h
    simp only [emitDecls] at h
    split at h
    · exact absurd h (by simp)
    · have h2 := ih (env ++ [d]) env' h
      simp [h2, List.append_assoc]

theorem emitDecls_of_addsOk (ds : List Decl) : ∀ env : List Decl,
    addsOk env ds = true → emitDecls env ds = Except.ok (env ++ ds) := by
  induction ds with
  | nil =>
    intro env _
    simp [emitDecls, addsOk]
  | cons d ds ih =>
    intro env h
    simp only [addsOk, Bool.and_eq_true, Bool.not_eq_true'] at h
    have h2 := ih (env ++ [d]) h.2
    simp [emitDecls, h.1, h2, List.append_assoc]

theorem addsOk_append (a : List Decl) : ∀ env b : List Decl,
    addsOk env (a ++ b) = (addsOk env a && addsOk (env ++ a) b) := by
  induction a with
  | nil =>
    intro env b
    simp [addsOk]
  | cons d a ih =>
    intro env b
    simp only [List.cons_append, addsOk, List.append_eq]
    rw [ih (env ++ [d]) b]
    simp [Bool.and_assoc, List.append_assoc]

theorem mem_macrosAfterIoctl_of_mem {ms : List String} {x : String}
    (h : x ∈ ms) : x ∈ macrosAfterIoctl ms := by
  unfold macrosAfterIoctl
  split <;> simp [h]

theorem ioctl_mem_macrosAfterIoctl (ms : List String) :
    "_CAP_IOCTL_T_DECLARED" ∈ macrosAfterIoctl ms := by
  unfold macrosAfterIoctl
  split
  · assumption
  · simp

theorem rights_mem_macrosAfterIoctl_iff (ms : List String) :
    "_CAP_RIGHTS_T_DECLARED" ∈ macrosAfterIoctl ms ↔
      "_CAP_RIGHTS_T_DECLARED" ∈ ms := by
  unfold macrosAfterIoctl
  split
  · exact Iff.rfl
  · simp

theorem mem_macrosAfterPatch_of_mem {ms : List String} {x : String}
    (h : x ∈ ms) : x ∈ macrosAfterPatch ms := by
  unfold macrosAfterPatch
  split <;> simp [mem_macrosAfterIoctl_of_mem h]

theorem ioctl_mem_macrosAfterPatch (ms : List String) :
    "_CAP_IOCTL_T_DECLARED" ∈ macrosAfterPatch ms := by
  unfold macrosAfterPatch
  split <;> simp [ioctl_mem_macrosAfterIoctl]

theorem rights_mem_macrosAfterPatch (ms : List String) :
    "_CAP_RIGHTS_T_DECLARED" ∈ macrosAfterPatch ms := by
  unfold macrosAfterPatch
  split
  · assumption
  · simp

theorem nlItem_mem_patchFor (ms : List String) : nlItemDecl ∈ patchFor ms := by
  unfold patchFor
  simp

theorem uRegister_mem_patchFor (ms : List String) :
    uRegisterDecl ∈ patchFor ms := by
  unfold patchFor
  simp

theorem patchFor_subset (ms : List String) :
    ∀ d ∈ patchFor ms,
      d ∈ [uintptrDecl, nlItemDecl, uRegisterDecl, capIoctlDecl,
           capRightsFwd, capRightsDecl] := by
  intro d hd
  unfold patchFor at hd
  split at hd <;> split at hd <;> split at hd <;> simp_all <;> tauto

theorem capIoctl_not_mem_patchFor {ms : List String}
    (h : "_CAP_IOCTL_T_DECLARED" ∈ ms) : capIoctlDecl ∉ patchFor ms := by
  unfold patchFor
  rw [if_pos h]
  split <;> split <;> decide

theorem capIoctl_typedef_not_mem_patchFor {ms : List String}
    (h : "_CAP_IOCTL_T_DECLARED" ∈ ms) (t : String) :
    Decl.typedef "cap_ioctl_t" t ∉ patchFor ms := by
  unfold patchFor
  rw [if_pos h]
  split <;> split <;>
    simp [uintptrDecl, nlItemDecl, uRegisterDecl, capRightsFwd,
      capRightsDecl]

theorem capRightsFwd_not_mem_patchFor {ms : List String}
    (h : "_CAP_RIGHTS_T_DECLARED" ∈ ms) : capRightsFwd ∉ patchFor ms := by
  unfold patchFor
  rw [if_pos (mem_macrosAfterIoctl_of_mem h)]
  split <;> split <;> decide

theorem capRights_typedef_not_mem_patchFor {ms : List String}
    (h : "_CAP_RIGHTS_T_DECLARED" ∈ ms) (t : String) :
    Decl.typedef "cap_rights_t" t ∉ patchFor ms := by
  unfold patchFor
  rw [if_pos (mem_macrosAfterIoctl_of_mem h)]
  split <;> split <;>
    simp [uintptrDecl, nlItemDecl, uRegisterDecl, capIoctlDecl]

theorem capRightsDecl_not_mem_patchFor {ms : List String}
    (h : "_CAP_RIGHTS_T_DECLARED" ∈ ms) : capRightsDecl ∉ patchFor ms := by
  unfold patchFor
  rw [if_pos (mem_macrosAfterIoctl_of_mem h)]
  split <;> split <;> decide

theorem uintptr_not_mem_patchFor {ms : List String}
    (h : "__linux__" ∉ ms) : uintptrDecl ∉ patchFor ms := by
  unfold patchFor
  rw [if_neg h]
  split <;> split <;> decide

theorem structDef_not_mem_patchFor (ms : List String) (s : String) :
    Decl.structDef s ∉ patchFor ms := by
  intro hmem
  have h2 := patchFor_subset ms _ hmem
  simp [uintptrDecl, nlItemDecl, uRegisterDecl, capIoctlDecl, capRightsFwd,
    capRightsDecl] at h2

theorem capRights_mem_patchFor {ms : List String}
    (h : "_CAP_RIGHTS_T_DECLARED" ∉ ms) :
    capRightsFwd ∈ patchFor ms ∧ capRightsDecl ∈ patchFor ms := by
  have h2 : "_CAP_RIGHTS_T_DECLARED" ∉ macrosAfterIoctl ms := by
    rw [rights_mem_macrosAfterIoctl_iff]
    exact h
  unfold patchFor
  rw [if_neg h2]
  constructor <;> simp

theorem patchFor_congr {ms1 ms2 : List String}
    (hl : "__linux__" ∈ ms1 ↔ "__linux__" ∈ ms2)
    (hg1 : "_CAP_IOCTL_T_DECLARED" ∈ ms1 ↔ "_CAP_IOCTL_T_DECLARED" ∈ ms2)
    (hg2 : "_CAP_RIGHTS_T_DECLARED" ∈ ms1 ↔ "_CAP_RIGHTS_T_DECLARED" ∈ ms2) :
    patchFor ms1 = patchFor ms2 := by
  unfold patchFor
  simp only [rights_mem_macrosAfterIoctl_iff, hl, hg1, hg2]

theorem typedefCount_append (a b : List Decl) (n : String) :
    typedefCount (a ++ b) n = typedefCount a n + typedefCount b n := by
  simp [typedefCount, List.filter_append]

/-! ### Characterisation of a successful inclusion -/

theorem include_ok_cases (plat : Platform) (st : PPState) (out : List Decl)
    (st' : PPState)
    (h : includeCompatSysTypesH plat st = Except.ok (out, st')) :
    (st.typesHIncluded = true ∧ out = [] ∧ st' = st) ∨
    (st.typesHIncluded = false ∧ plat.sysTypesOk = true ∧
      out = plat.sysTypesDecls ++ plat.stdintDecls
          ++ patchFor (macrosAfterIncludes plat st) ∧
      st' = { typesHIncluded := true,
              macros := macrosAfterPatch (macrosAfterIncludes plat st),
              env := st.env ++ out }) := by
  unfold includeCompatSysTypesH at h
  split at h
  case isTrue h1 =>
    left
    simp only [Except.ok.injEq, Prod.mk.injEq] at h
    exact ⟨h1, h.1.symm, h.2.symm⟩
  case isFalse h1 =>
    right
    split at h
    case isFalse h2 => exact absurd h (by simp)
    case isTrue h2 =>
      split at h
      case h_1 => exact absurd h (by simp)
      case h_2 env2 e1 =>
        split at h
        case h_1 => exact absurd h (by simp)
        case h_2 env7 e2 =>
          split at h
          case h_1 => exact absurd h (by simp)
          case h_2 envEnd e3 =>
            simp only [Except.ok.injEq, Prod.mk.injEq] at h
            have g1 := emitDecls_ok_eq _ _ _ e1
            have g2 := emitDecls_ok_eq _ _ _ e2
            have g3 := emitDecls_ok_eq _ _ _ e3
            refine ⟨Bool.not_eq_true _ ▸ eq_false_of_ne_true h1, h2,
              h.1.symm, ?_⟩
            rw [← h.2, ← h.1]
            simp [g3, g2, g1, List.append_assoc]

theorem include_ok_of_addsOk (plat : Platform) (st : PPState)
    (h1 : st.typesHIncluded = false) (h2 : plat.sysTypesOk = true)
    (h3 : addsOk st.env (plat.sysTypesDecls ++ plat.stdintDecls
            ++ patchFor (macrosAfterIncludes plat st)) = true) :
    includeCompatSysTypesH plat st =
      Except.ok (plat.sysTypesDecls ++ plat.stdintDecls
                   ++ patchFor (macrosAfterIncludes plat st),
        { typesHIncluded := true,
          macros := macrosAfterPatch (macrosAfterIncludes plat st),
          env := st.env ++ (plat.sysTypesDecls ++ plat.stdintDecls
                   ++ patchFor (macrosAfterIncludes plat st)) }) := by
  rw [addsOk_append, addsOk_append, Bool.and_assoc] at h3
  simp only [Bool.and_eq_true] at h3
  obtain ⟨e1, e2, e3⟩ := h3
  have g1 := emitDecls_of_addsOk _ _ e1
  have g2 := emitDecls_of_addsOk _ _ e2
  have g3 := emitDecls_of_addsOk _ _ e3
  simp [includeCompatSysTypesH, h1, h2, g1, g2, g3, List.append_assoc]

theorem include_sets_included (plat : Platform) (st : PPState)
    (out : List Decl) (st' : PPState)
    (h : includeCompatSysTypesH plat st = Except.ok (out, st')) :
    st'.typesHIncluded = true := by
  rcases include_ok_cases plat st out st' h with ⟨h1, _, h3⟩ | ⟨_, _, _, h4⟩
  · rw [h3]
    exact h1
  · rw [h4]

/-! ### The claims -/

/-- C1: including the header a second or further time in the same
translation unit emits no declarations and produces no redefinition error:
from the state left by any successful inclusion, a repeated inclusion
returns that state unchanged with an empty emission, so repeated inclusion
is equivalent to a single inclusion. -/
theorem c1_repeated_inclusion_idempotent (plat : Platform) (st : PPState)
    (out : List Decl) (st' : PPState)
    (h : includeCompatSysTypesH plat st = Except.ok (out, st')) :
    includeCompatSysTypesH plat st' = Except.ok ([], st') := by
  have h2 := include_sets_included plat st out st' h
  simp [includeCompatSysTypesH, h2]

/-- Witness for C1: concrete repeated inclusion on a bare platform. -/
theorem c1_repeated_inclusion_idempotent_witness :
    includeCompatSysTypesH platBare stAfterBare =
      Except.ok ([], stAfterBare) :=
  c1_repeated_inclusion_idempotent platBare stEmpty bareOut stAfterBare
    (by rfl)

/-- C2 is refuted: on a platform that does not predefine the `__linux__`
macro (here a bare platform whose `sys/types.h` resolves), a first
inclusion succeeds yet the translation unit ends with no typedef of
`__uintptr_t` at all, so not every one of the five symbols is defined after
inclusion. -/
theorem c2_five_defined_once_counterexample :
    includeCompatSysTypesH platBare stEmpty =
        Except.ok (bareOut, stAfterBare) ∧
      typedefCount stAfterBare.env "__uintptr_t" = 0 ∧
      "__uintptr_t" ∈ fiveNames :=
  ⟨by rfl, by rfl, by decide⟩

/-- C2 (amended): on any platform that predefines `__linux__` (the case the
`#ifdef` guards for), in a translation unit where the header has not been
included, neither capsicum guard macro is defined, none of the five symbols
is already typedefed (by the unit, the platform `sys/types.h`, or
`stdint.h`), and no emitted declaration conflicts, after inclusion each of
the five symbols is typedefed exactly once.  Platforms without `__linux__`
get only the other four and leave `__uintptr_t` to the platform headers. -/
theorem c2_five_defined_once_amended (plat : Platform) (st : PPState)
    (h1 : st.typesHIncluded = false) (h2 : plat.sysTypesOk = true)
    (h3 : addsOk st.env (plat.sysTypesDecls ++ plat.stdintDecls
            ++ patchFor (macrosAfterIncludes plat st)) = true)
    (hl : "__linux__" ∈ macrosAfterIncludes plat st)
    (hg1 : "_CAP_IOCTL_T_DECLARED" ∉ macrosAfterIncludes plat st)
    (hg2 : "_CAP_RIGHTS_T_DECLARED" ∉ macrosAfterIncludes plat st)
    (hfresh : ∀ n ∈ fiveNames,
      typedefCount st.env n = 0 ∧ typedefCount plat.sysTypesDecls n = 0 ∧
        typedefCount plat.stdintDecls n = 0) :
    ∀ n ∈ fiveNames,
      typedefCount (envAfter (includeCompatSysTypesH plat st)) n = 1 := by
  have hrights :
      "_CAP_RIGHTS_T_DECLARED" ∉ macrosAfterIoctl
        (macrosAfterIncludes plat st) := by
    rw [rights_mem_macrosAfterIoctl_iff]
    exact hg2
  have hpatch : patchFor (macrosAfterIncludes plat st) =
      [uintptrDecl, nlItemDecl, uRegisterDecl, capIoctlDecl, capRightsFwd,
       capRightsDecl] := by
    unfold patchFor
    rw [if_pos hl, if_neg hg1, if_neg hrights]
    rfl
  intro n hn
  obtain ⟨z1, z2, z3⟩ := hfresh n hn
  rw [include_ok_of_addsOk plat st h1 h2 h3]
  simp only [envAfter]
  rw [typedefCount_append, typedefCount_append, typedefCount_append, z1,
    z2, z3, hpatch]
  simp only [fiveNames] at hn
  fin_cases hn <;> rfl

/-- Witness for the amended C2 on a Linux-like context. -/
theorem c2_five_defined_once_amended_witness :
    typedefCount (envAfter (includeCompatSysTypesH platBare stLinuxTU))
      "__nl_item" = 1 :=
  c2_five_defined_once_amended platBare stLinuxTU (by rfl) (by rfl)
    (by decide) (by decide) (by decide) (by decide) (by decide)
    "__nl_item" (by decide)

/-- C3 is refuted: in a translation unit where `__nl_item` is already
typedefed, a first inclusion still emits the `__nl_item` typedef; that
declaration is not skipped when the symbol is already defined, so not every
additional declaration is conditional. -/
theorem c3_all_conditional_counterexample :
    typedefCount stNlItemTU.env "__nl_item" = 1 ∧
      nlItemDecl ∈ emittedDecls (includeCompatSysTypesH platBare stNlItemTU) := by
  constructor
  · rfl
  · decide

/-- C3 (amended): only the two capsicum declarations are skipped based on
their pre-existing guard macros (`cap_ioctl_t` under
`_CAP_IOCTL_T_DECLARED`, the `cap_rights` declarations under
`_CAP_RIGHTS_T_DECLARED`); the `__uintptr_t` declaration is conditional on
the `__linux__` macro rather than on the symbol being already defined; and
the `__nl_item` and `u_register_t` typedefs are emitted unconditionally on
every successful first inclusion. -/
theorem c3_all_conditional_amended (plat : Platform) (st : PPState)
    (out : List Decl) (st' : PPState)
    (h1 : st.typesHIncluded = false)
    (h : includeCompatSysTypesH plat st = Except.ok (out, st')) :
    ("_CAP_IOCTL_T_DECLARED" ∈ macrosAfterIncludes plat st →
       capIoctlDecl ∉ patchFor (macrosAfterIncludes plat st)) ∧
    ("_CAP_RIGHTS_T_DECLARED" ∈ macrosAfterIncludes plat st →
       capRightsFwd ∉ patchFor (macrosAfterIncludes plat st) ∧
       capRightsDecl ∉ patchFor (macrosAfterIncludes plat st)) ∧
    ("__linux__" ∉ macrosAfterIncludes plat st →
       uintptrDecl ∉ patchFor (macrosAfterIncludes plat st)) ∧
    nlItemDecl ∈ out ∧ uRegisterDecl ∈ out := by
  rcases include_ok_cases plat st out st' h with ⟨hT, _, _⟩ | ⟨_, _, hout, _⟩
  · exact absurd hT (by simp [h1])
  · refine ⟨fun hm => capIoctl_not_mem_patchFor hm,
      fun hm => ⟨capRightsFwd_not_mem_patchFor hm,
        capRightsDecl_not_mem_patchFor hm⟩,
      fun hm => uintptr_not_mem_patchFor hm, ?_, ?_⟩
    · rw [hout]
      exact List.mem_append_right _ (nlItem_mem_patchFor _)
    · rw [hout]
      exact List.mem_append_right _ (uRegister_mem_patchFor _)

/-- Witness for the amended C3: the unconditional typedefs are part of a
concrete bare emission. -/
theorem c3_all_conditional_amended_witness : nlItemDecl ∈ bareOut :=
  (c3_all_conditional_amended platBare stEmpty bareOut stAfterBare (by rfl)
    (by rfl)).2.2.2.1

/-- C4 is refuted: `uint32_t` becomes visible by including the header (it
comes from the `stdint.h` inclusion) although it is not one of the five
names and the platform `sys/types.h` does not expose it, so the set of
symbols made visible is not limited to the five names plus the platform
`sys/types.h` contents. -/
theorem c4_interface_counterexample :
    Decl.typedef "uint32_t" "unsigned int"
        ∈ envAfter (includeCompatSysTypesH platStdint stEmpty) ∧
      "uint32_t" ∉ fiveNames ∧
      typedefCount platStdint.sysTypesDecls "uint32_t" = 0 :=
  ⟨by decide, by decide, by rfl⟩

/-- C4 (amended): the declarations visible after a successful first
inclusion are exactly those already visible, those of the platform
`sys/types.h`, those of `stdint.h`, and the patch declarations of the
header itself, every one of which is one of the five typedefs or the
`cap_rights` struct forward declaration. -/
theorem c4_interface_amended (plat : Platform) (st : PPState)
    (out : List Decl) (st' : PPState)
    (h1 : st.typesHIncluded = false)
    (h : includeCompatSysTypesH plat st = Except.ok (out, st')) :
    st'.env = st.env ++ (plat.sysTypesDecls ++ plat.stdintDecls
        ++ patchFor (macrosAfterIncludes plat st)) ∧
      ∀ d ∈ patchFor (macrosAfterIncludes plat st),
        d ∈ [uintptrDecl, nlItemDecl, uRegisterDecl, capIoctlDecl,
             capRightsFwd, capRightsDecl] := by
  rcases include_ok_cases plat st out st' h with ⟨hT, _, _⟩ | ⟨_, _, hout, hst⟩
  · exact absurd hT (by simp [h1])
  · constructor
    · rw [hst, hout]
    · exact patchFor_subset _

/-- Witness for the amended C4 at a platform with `stdint.h` content. -/
theorem c4_interface_amended_witness :
    stAfterStdint.env = stEmpty.env ++ (platStdint.sysTypesDecls
        ++ platStdint.stdintDecls
        ++ patchFor (macrosAfterIncludes platStdint stEmpty)) :=
  (c4_interface_amended platStdint stEmpty stdintOut stAfterStdint (by rfl)
    (by rfl)).1

/-- C5 is refuted: the platform `sys/types.h` resolves, yet inclusion fails
with a redefinition error brought by the header: its unconditional
`typedef int __nl_item` conflicts with an already visible typedef of
`__nl_item` at a different type. -/
theorem c5_failure_modes_counterexample :
    platBare.sysTypesOk = true ∧
      includeCompatSysTypesH platBare stNlConflictTU = Except.error () :=
  ⟨rfl, by rfl⟩

/-- C5 (amended): on a first inclusion the failure modes are exactly two:
the platform `sys/types.h` failing to resolve makes inclusion fail, and if
it resolves then inclusion succeeds precisely unless an emitted declaration
conflicts with one already visible (a typedef redefinition at a different
type). -/
theorem c5_failure_modes_amended (plat : Platform) (st : PPState)
    (h1 : st.typesHIncluded = false) :
    (plat.sysTypesOk = false →
       includeCompatSysTypesH plat st = Except.error ()) ∧
    (plat.sysTypesOk = true →
       addsOk st.env (plat.sysTypesDecls ++ plat.stdintDecls
           ++ patchFor (macrosAfterIncludes plat st)) = true →
       includeCompatSysTypesH plat st =
         Except.ok (plat.sysTypesDecls ++ plat.stdintDecls
             ++ patchFor (macrosAfterIncludes plat st),
           { typesHIncluded := true,
             macros := macrosAfterPatch (macrosAfterIncludes plat st),
             env := st.env ++ (plat.sysTypesDecls ++ plat.stdintDecls
                 ++ patchFor (macrosAfterIncludes plat st)) })) := by
  constructor
  · intro h2
    simp [includeCompatSysTypesH, h1, h2]
  · intro h2 h3
    exact include_ok_of_addsOk plat st h1 h2 h3

/-- Witness for the amended C5: inclusion on a platform with no resolvable
`sys/types.h` fails. -/
theorem c5_failure_modes_amended_witness :
    includeCompatSysTypesH platNoSysTypes stEmpty = Except.error () :=
  (c5_failure_modes_amended platNoSysTypes stEmpty (by rfl)).1 (by rfl)

/-- C6: on every successful first inclusion the emitted text is the full
platform `sys/types.h` contents followed by a tail consisting of the
`stdint.h` contents and the patch declarations of the header, and every
declaration the header patches in lies in that tail, textually after the
forwarded platform contents. -/
theorem c6_platform_contents_first (plat : Platform) (st : PPState)
    (out : List Decl) (st' : PPState)
    (h1 : st.typesHIncluded = false)
    (h : includeCompatSysTypesH plat st = Except.ok (out, st')) :
    out = plat.sysTypesDecls ++ (plat.stdintDecls
        ++ patchFor (macrosAfterIncludes plat st)) ∧
      ∀ d ∈ patchFor (macrosAfterIncludes plat st),
        d ∈ plat.stdintDecls ++ patchFor (macrosAfterIncludes plat st) := by
  rcases include_ok_cases plat st out st' h with ⟨hT, _, _⟩ | ⟨_, _, hout, _⟩
  · exact absurd hT (by simp [h1])
  · constructor
    · rw [hout, List.append_assoc]
    · intro d hd
      exact List.mem_append_right _ hd

/-- Witness for C6 at a platform whose `sys/types.h` has content. -/
theorem c6_platform_contents_first_witness :
    sysOut = platSys.sysTypesDecls ++ (platSys.stdintDecls
        ++ patchFor (macrosAfterIncludes platSys stEmpty)) :=
  (c6_platform_contents_first platSys stEmpty sysOut stAfterSys (by rfl)
    (by rfl)).1

/-- C7 is refuted: when the platform `sys/types.h` itself typedefs
`__nl_item` at a type other than `int`, the unconditional typedef of the
header redefines a name the platform header introduced and the translation
unit fails to compile, so the platform declarations do not remain visible
after the header is included. -/
theorem c7_platform_decls_preserved_counterexample :
    typedefCount platNlConflict.sysTypesDecls "__nl_item" = 1 ∧
      includeCompatSysTypesH platNlConflict stEmpty = Except.error () :=
  ⟨by rfl, by rfl⟩

/-- C7 (amended): whenever inclusion succeeds nothing is removed, undefined
or shadowed: the resulting environment is the previous one extended by the
emitted declarations, and on a first inclusion every declaration of the
platform `sys/types.h` is visible in the result.  The header can however
redeclare a name the platform header introduced, since its `__nl_item` and
`u_register_t` typedefs are unconditional: identically, which is benign,
or at a different type, which is a compile error rather than shadowing
(see the counterexample). -/
theorem c7_platform_decls_preserved_amended (plat : Platform)
    (st : PPState) (out : List Decl) (st' : PPState)
    (h : includeCompatSysTypesH plat st = Except.ok (out, st')) :
    st'.env = st.env ++ out ∧
      (st.typesHIncluded = false →
        ∀ d ∈ plat.sysTypesDecls, d ∈ st'.env) := by
  rcases include_ok_cases plat st out st' h with
    ⟨hT, hout, hst⟩ | ⟨_, _, hout, hst⟩
  · constructor
    · rw [hst, hout]
      simp
    · intro hc
      rw [hc] at hT
      exact absurd hT (by decide)
  · constructor
    · rw [hst]
    · intro _ d hd
      rw [hst, hout]
      simp [hd]

/-- Witness for the amended C7 at a platform whose `sys/types.h` has
content. -/
theorem c7_platform_decls_preserved_amended_witness :
    Decl.typedef "u_int" "unsigned int" ∈ stAfterSys.env :=
  (c7_platform_decls_preserved_amended platSys stEmpty sysOut stAfterSys
    (by rfl)).2 (by rfl) _ (by decide)

/-- C8 is refuted: two inclusion contexts on the same platform that differ
only in whether the `__linux__` macro is predefined receive different
emitted declarations, so the emission does depend on the surrounding
preprocessing state. -/
theorem c8_context_free_counterexample :
    emittedDecls (includeCompatSysTypesH platBare stLinuxTU) ≠
      emittedDecls (includeCompatSysTypesH platBare stEmpty) := by
  decide

/-- C8 (amended): inclusion is parameterless, but its emission does depend
on the surrounding preprocessing state, and on exactly four facts about it:
whether the header was already included, and whether each of `__linux__`,
`_CAP_IOCTL_T_DECLARED` and `_CAP_RIGHTS_T_DECLARED` is defined.  Two
successful inclusions on the same platform from contexts agreeing on those
four facts emit the same declarations, whatever else the contexts hold. -/
theorem c8_context_free_amended (plat : Platform) (st1 st2 : PPState)
    (out1 out2 : List Decl) (stA stB : PPState)
    (hA : includeCompatSysTypesH plat st1 = Except.ok (out1, stA))
    (hB : includeCompatSysTypesH plat st2 = Except.ok (out2, stB))
    (hinc : st1.typesHIncluded = st2.typesHIncluded)
    (hl : "__linux__" ∈ st1.macros ↔ "__linux__" ∈ st2.macros)
    (hg1 : "_CAP_IOCTL_T_DECLARED" ∈ st1.macros ↔
      "_CAP_IOCTL_T_DECLARED" ∈ st2.macros)
    (hg2 : "_CAP_RIGHTS_T_DECLARED" ∈ st1.macros ↔
      "_CAP_RIGHTS_T_DECLARED" ∈ st2.macros) :
    out1 = out2 := by
  rcases include_ok_cases plat st1 out1 stA hA with
    ⟨hT1, ho1, _⟩ | ⟨hF1, _, ho1, _⟩
  · rcases include_ok_cases plat st2 out2 stB hB with
      ⟨_, ho2, _⟩ | ⟨hF2, _, _, _⟩
    · rw [ho1, ho2]
    · rw [hT1, hF2] at hinc
      exact absurd hinc (by decide)
  · rcases include_ok_cases plat st2 out2 stB hB with
      ⟨hT2, _, _⟩ | ⟨hF2, _, ho2, _⟩
    · rw [hF1, hT2] at hinc
      exact absurd hinc (by decide)
    · have m1 : ("__linux__" ∈ macrosAfterIncludes plat st1) ↔
          ("__linux__" ∈ macrosAfterIncludes plat st2) := by
        simp only [macrosAfterIncludes, List.mem_append, hl]
      have m2 : ("_CAP_IOCTL_T_DECLARED" ∈ macrosAfterIncludes plat st1) ↔
          ("_CAP_IOCTL_T_DECLARED" ∈ macrosAfterIncludes plat st2) := by
        simp only [macrosAfterIncludes, List.mem_append, hg1]
      have m3 : ("_CAP_RIGHTS_T_DECLARED" ∈ macrosAfterIncludes plat st1) ↔
          ("_CAP_RIGHTS_T_DECLARED" ∈ macrosAfterIncludes plat st2) := by
        simp only [macrosAfterIncludes, List.mem_append, hg2]
      rw [ho1, ho2, patchFor_congr m1 m2 m3]

/-- Witness for the amended C8: contexts differing in an unrelated macro
and an unrelated declaration emit the same text. -/
theorem c8_context_free_amended_witness :
    emittedDecls (includeCompatSysTypesH platBare stOtherTU) = bareOut :=
  c8_context_free_amended platBare stOtherTU stEmpty bareOut bareOut
    stAfterOther stAfterBare (by rfl) (by rfl) (by rfl) (by decide)
    (by decide) (by decide)

/-- C9: on any platform, after a successful first inclusion every
declaration contributed by `stdint.h` is part of the emitted text and
visible in the resulting translation unit, whether or not the platform
`sys/types.h` provides it. -/
theorem c9_stdint_always_included (plat : Platform) (st : PPState)
    (out : List Decl) (st' : PPState)
    (h1 : st.typesHIncluded = false)
    (h : includeCompatSysTypesH plat st = Except.ok (out, st')) :
    ∀ d ∈ plat.stdintDecls, d ∈ out ∧ d ∈ st'.env := by
  rcases include_ok_cases plat st out st' h with ⟨hT, _, _⟩ | ⟨_, _, hout, hst⟩
  · exact absurd hT (by simp [h1])
  · intro d hd
    constructor
    · rw [hout]
      simp [hd]
    · rw [hst, hout]
      simp [hd]

/-- Witness for C9: `uint32_t` from `stdint.h` is emitted and visible. -/
theorem c9_stdint_always_included_witness :
    Decl.typedef "uint32_t" "unsigned int" ∈ stdintOut ∧
      Decl.typedef "uint32_t" "unsigned int" ∈ stAfterStdint.env :=
  c9_stdint_always_included platStdint stEmpty stdintOut stAfterStdint
    (by rfl) (by rfl) _ (by decide)

/-- C10: the capsicum guard protocol: on a successful first inclusion, a
guard macro defined beforehand suppresses the corresponding capsicum
declarations in the patch of the header (no `cap_ioctl_t` typedef, resp. no
`cap_rights` declarations); after inclusion both guard macros are defined,
so a later header guarded by them skips its own declaration; the patch
never contains a struct definition, leaving `struct cap_rights` incomplete;
and when the rights guard was absent the patch contains the forward
declaration of `struct cap_rights` together with the typedef aliasing
`cap_rights_t` to `struct cap_rights`. -/
theorem c10_capsicum_guard_protocol (plat : Platform) (st : PPState)
    (out : List Decl) (st' : PPState)
    (h1 : st.typesHIncluded = false)
    (h : includeCompatSysTypesH plat st = Except.ok (out, st')) :
    ("_CAP_IOCTL_T_DECLARED" ∈ st.macros →
       ∀ t, Decl.typedef "cap_ioctl_t" t ∉
         patchFor (macrosAfterIncludes plat st)) ∧
    ("_CAP_RIGHTS_T_DECLARED" ∈ st.macros →
       ∀ t, Decl.typedef "cap_rights_t" t ∉
         patchFor (macrosAfterIncludes plat st)) ∧
    "_CAP_IOCTL_T_DECLARED" ∈ st'.macros ∧
    "_CAP_RIGHTS_T_DECLARED" ∈ st'.macros ∧
    (∀ s, Decl.structDef s ∉ patchFor (macrosAfterIncludes plat st)) ∧
    ("_CAP_RIGHTS_T_DECLARED" ∉ macrosAfterIncludes plat st →
       capRightsFwd ∈ patchFor (macrosAfterIncludes plat st) ∧
       capRightsDecl ∈ patchFor (macrosAfterIncludes plat st)) := by
  rcases include_ok_cases plat st out st' h with ⟨hT, _, _⟩ | ⟨_, _, _, hst⟩
  · exact absurd hT (by simp [h1])
  · have hmem : ∀ x, x ∈ st.macros → x ∈ macrosAfterIncludes plat st := by
      intro x hx
      simp [macrosAfterIncludes, hx]
    refine ⟨fun hm t => capIoctl_typedef_not_mem_patchFor (hmem _ hm) t,
      fun hm t => capRights_typedef_not_mem_patchFor (hmem _ hm) t,
      ?_, ?_, fun s => structDef_not_mem_patchFor _ s,
      fun hm => capRights_mem_patchFor hm⟩
    · rw [hst]
      exact ioctl_mem_macrosAfterPatch _
    · rw [hst]
      exact rights_mem_macrosAfterPatch _

/-- Witness for C10: after a bare inclusion both guard macros are
defined. -/
theorem c10_capsicum_guard_protocol_witness :
    "_CAP_IOCTL_T_DECLARED" ∈ stAfterBare.macros :=
  (c10_capsicum_guard_protocol platBare stEmpty bareOut stAfterBare
    (by rfl) (by rfl)).2.2.1

end CrossBuild
